import Mathlib

/-!
Shallow embedding of the spotigod terminal Spotify client
(src/config/mod.rs, src/spotify/client.rs, src/spotify/models.rs,
src/ui/mod.rs), together with theorems checking the design
specification against it.

Conventions of the embedding:
* Machine integers (i32, i64) become Int; usize indices become Nat.
* Fallible operations return Except String.
* The network is modelled by an oracle record Net holding, for each
  remote endpoint the embedded code may hit, the already-parsed outcome
  of the next request to that endpoint.  Every embedded operation
  returns, besides its result, the list of remote API requests it
  issued (a List NetCall), so that claims about which network calls
  happen are statements about that trace.  The authorization-header
  step shared by every client call (token refresh against the token
  endpoint) is not part of the NetCall trace: it targets the accounts
  endpoint, not the playback API, and no claim depends on it.
* ratatui ListState is modelled by its selected index (Option Nat),
  the only part of it the source reads or writes; ListState::default()
  has selected = None.
* Wall-clock reads (chrono::Utc::now().timestamp()) become an explicit
  Int argument now.
-/

namespace Spotigod

/-! ## Configuration and token lifecycle (src/config/mod.rs) -/

/-- Persisted session record, src/config/mod.rs lines 6-14. -/
structure Config where
  client_id : String
  client_secret : String
  redirect_uri : String
  access_token : Option String
  refresh_token : Option String
  token_expires_at : Option Int
deriving Repr, DecidableEq

/-- Config::is_token_valid, src/config/mod.rs lines 71-78.  The source
reads the clock itself; here now is the value of
chrono::Utc::now().timestamp(). -/
def Config.is_token_valid (c : Config) (now : Int) : Bool :=
  match c.access_token, c.token_expires_at with
  | some _, some expires_at => decide (expires_at > now + 60)
  | _, _ => false

/-- Token-endpoint response body, src/spotify/models.rs lines 3-10. -/
structure TokenResponse where
  access_token : String
  token_type : String
  expires_in : Int
  refresh_token : Option String
  scope : String
deriving Repr, DecidableEq

/-- SpotifyClient::exchange_code_for_token, src/spotify/client.rs lines
109-141, restricted to its session mutation: resp is the parsed
outcome of the token-endpoint POST (error carries the response text),
now the clock at the success branch.  On success the config is
mutated and saved; the saved value is the returned one. -/
def exchange_code_for_token (c : Config) (resp : Except String TokenResponse)
    (now : Int) : Except String Config :=
  match resp with
  | .ok token_response =>
      .ok { c with
              access_token := some token_response.access_token,
              refresh_token := token_response.refresh_token,
              token_expires_at := some (now + token_response.expires_in) }
  | .error error_text => .error ("Error al obtener token: " ++ error_text)

/-- SpotifyClient::refresh_access_token, src/spotify/client.rs lines
154-186, restricted to its session mutation.  A refresh_token in the
response replaces the stored one; otherwise the stored one is kept. -/
def refresh_access_token (c : Config) (resp : Except String TokenResponse)
    (now : Int) : Except String Config :=
  match resp with
  | .ok token_response =>
      .ok { c with
              access_token := some token_response.access_token,
              refresh_token :=
                match token_response.refresh_token with
                | some new_refresh_token => some new_refresh_token
                | none => c.refresh_token,
              token_expires_at := some (now + token_response.expires_in) }
  | .error _ => .error ("Error al refrescar token")

/-! ## API data model (src/spotify/models.rs) -/

/-- src/spotify/models.rs lines 48-51. -/
structure ExternalUrls where
  spotify : String
deriving Repr, DecidableEq

/-- src/spotify/models.rs lines 41-46. -/
structure Image where
  height : Option Int
  url : String
  width : Option Int
deriving Repr, DecidableEq

/-- src/spotify/models.rs lines 24-29. -/
structure Artist where
  id : String
  name : String
  external_urls : ExternalUrls
deriving Repr, DecidableEq

/-- src/spotify/models.rs lines 31-39. -/
structure Album where
  id : String
  name : String
  artists : List Artist
  images : List Image
  release_date : String
  external_urls : ExternalUrls
deriving Repr, DecidableEq

/-- src/spotify/models.rs lines 12-22. -/
structure Track where
  id : String
  name : String
  artists : List Artist
  album : Album
  duration_ms : Int
  explicit : Bool
  external_urls : ExternalUrls
  popularity : Int
deriving Repr, DecidableEq

/-- src/spotify/models.rs lines 67-77. -/
structure Device where
  id : Option String
  is_active : Bool
  is_private_session : Bool
  is_restricted : Bool
  name : String
  device_type : String
  volume_percent : Option Int
deriving Repr, DecidableEq

/-- src/spotify/models.rs lines 79-86. -/
structure Context where
  external_urls : ExternalUrls
  href : String
  context_type : String
  uri : String
deriving Repr, DecidableEq

/-- src/spotify/models.rs lines 88-100. -/
structure Actions where
  interrupting_playback : Option Bool
  pausing : Option Bool
  resuming : Option Bool
  seeking : Option Bool
  skipping_next : Option Bool
  skipping_prev : Option Bool
  toggling_repeat_context : Option Bool
  toggling_shuffle : Option Bool
  toggling_repeat_track : Option Bool
  transferring_playback : Option Bool
deriving Repr, DecidableEq

/-- src/spotify/models.rs lines 53-65. -/
structure PlaybackState where
  device : Device
  repeat_state : String
  shuffle_state : Bool
  context : Option Context
  timestamp : Int
  progress_ms : Option Int
  is_playing : Bool
  item : Option Track
  currently_playing_type : String
  actions : Actions
deriving Repr, DecidableEq

/-- src/spotify/models.rs lines 148-152. -/
structure PlaylistOwner where
  id : String
  display_name : Option String
  external_urls : ExternalUrls
deriving Repr, DecidableEq

/-- src/spotify/models.rs lines 155-158. -/
structure PlaylistTracks where
  href : String
  total : Int
deriving Repr, DecidableEq

/-- src/spotify/models.rs lines 136-145. -/
structure Playlist where
  id : String
  name : String
  description : Option String
  images : List Image
  owner : PlaylistOwner
  public : Option Bool
  tracks : PlaylistTracks
  external_urls : ExternalUrls
deriving Repr, DecidableEq

/-! ## Remote endpoints (src/spotify/client.rs)

Each client method is embedded as a function of the Net oracle; an
oracle field holds the parsed outcome of the next request to the
corresponding endpoint (errors carry the HTTP status / body text the
source interpolates into its messages). -/

/-- One remote API request, as recorded in a trace. -/
inductive NetCall where
  | get_playback
  | put_play
  | put_pause
  | post_next
  | post_previous
  | put_volume (volume : Nat)
  | get_search (query : String) (limit : Nat)
  | put_play_track (uri : String)
  | get_playlists
  | get_saved_tracks
  | put_play_context (uri : String)
  | put_shuffle (state : Bool)
  | put_repeat (state : String)
deriving Repr, DecidableEq

/-- Network oracle: the parsed outcome of the next request to each
endpoint the embedded code may issue. -/
structure Net where
  playback : Except String (Option PlaybackState)
  play : Except String Unit
  pause : Except String Unit
  next_track : Except String Unit
  previous_track : Except String Unit
  set_volume : Except String Unit
  search_tracks : Except String (List Track)
  play_track : Except String Unit
  user_playlists : Except String (List Playlist)
  saved_tracks : Except String (List Track)
  play_playlist : Except String Unit
  shuffle_put : Except String Unit
  repeat_put : Except String Unit

/-- SpotifyClient::get_current_playback, src/spotify/client.rs lines
197-217 (204 becomes Ok none; other non-success statuses the error). -/
def client_get_current_playback (net : Net) :
    Except String (Option PlaybackState) × List NetCall :=
  match net.playback with
  | .ok playback_state => (.ok playback_state, [NetCall.get_playback])
  | .error status =>
      (.error ("Error al obtener estado de reproducción: " ++ status),
       [NetCall.get_playback])

/-- SpotifyClient::play, src/spotify/client.rs lines 219-235. -/
def client_play (net : Net) : Except String Unit × List NetCall :=
  match net.play with
  | .ok _ => (.ok (), [NetCall.put_play])
  | .error status => (.error ("Error al reproducir: " ++ status), [NetCall.put_play])

/-- SpotifyClient::pause, src/spotify/client.rs lines 237-253. -/
def client_pause (net : Net) : Except String Unit × List NetCall :=
  match net.pause with
  | .ok _ => (.ok (), [NetCall.put_pause])
  | .error status => (.error ("Error al pausar: " ++ status), [NetCall.put_pause])

/-- SpotifyClient::next_track, src/spotify/client.rs lines 255-271. -/
def client_next_track (net : Net) : Except String Unit × List NetCall :=
  match net.next_track with
  | .ok _ => (.ok (), [NetCall.post_next])
  | .error status =>
      (.error ("Error al saltar a siguiente canción: " ++ status), [NetCall.post_next])

/-- SpotifyClient::previous_track, src/spotify/client.rs lines 273-289. -/
def client_previous_track (net : Net) : Except String Unit × List NetCall :=
  match net.previous_track with
  | .ok _ => (.ok (), [NetCall.post_previous])
  | .error status =>
      (.error ("Error al ir a canción anterior: " ++ status), [NetCall.post_previous])

/-- SpotifyClient::set_volume, src/spotify/client.rs lines 291-307. -/
def client_set_volume (net : Net) (volume : Nat) :
    Except String Unit × List NetCall :=
  match net.set_volume with
  | .ok _ => (.ok (), [NetCall.put_volume volume])
  | .error status =>
      (.error ("Error al cambiar volumen: " ++ status), [NetCall.put_volume volume])

/-- SpotifyClient::search_tracks, src/spotify/client.rs lines 309-325
(a success with a missing tracks object is the already-flattened empty
list, matching unwrap_or_default). -/
def client_search_tracks (net : Net) (query : String) (limit : Nat) :
    Except String (List Track) × List NetCall :=
  match net.search_tracks with
  | .ok tracks => (.ok tracks, [NetCall.get_search query limit])
  | .error status =>
      (.error ("Error en búsqueda: " ++ status), [NetCall.get_search query limit])

/-- SpotifyClient::play_track, src/spotify/client.rs lines 327-347. -/
def client_play_track (net : Net) (track_uri : String) :
    Except String Unit × List NetCall :=
  match net.play_track with
  | .ok _ => (.ok (), [NetCall.put_play_track track_uri])
  | .error status =>
      (.error ("Error al reproducir canción: " ++ status),
       [NetCall.put_play_track track_uri])

/-- SpotifyClient::get_user_playlists, src/spotify/client.rs lines
366-381. -/
def client_get_user_playlists (net : Net) :
    Except String (List Playlist) × List NetCall :=
  match net.user_playlists with
  | .ok playlists => (.ok playlists, [NetCall.get_playlists])
  | .error status =>
      (.error ("Error al obtener playlists: " ++ status), [NetCall.get_playlists])

/-- SpotifyClient::get_saved_tracks, src/spotify/client.rs lines
383-398 (items already flattened to their tracks). -/
def client_get_saved_tracks (net : Net) :
    Except String (List Track) × List NetCall :=
  match net.saved_tracks with
  | .ok tracks => (.ok tracks, [NetCall.get_saved_tracks])
  | .error status =>
      (.error ("Error al obtener canciones favoritas: " ++ status),
       [NetCall.get_saved_tracks])

/-- SpotifyClient::play_playlist, src/spotify/client.rs lines 417-437. -/
def client_play_playlist (net : Net) (playlist_uri : String) :
    Except String Unit × List NetCall :=
  match net.play_playlist with
  | .ok _ => (.ok (), [NetCall.put_play_context playlist_uri])
  | .error status =>
      (.error ("Error al reproducir playlist: " ++ status),
       [NetCall.put_play_context playlist_uri])

/-- SpotifyClient::toggle_shuffle, src/spotify/client.rs lines 439-459:
it first fetches current playback over the network; only when that
fetch reports an active playback does it issue the shuffle PUT, with
the negation of the freshly fetched shuffle_state. -/
def client_toggle_shuffle (net : Net) : Except String Unit × List NetCall :=
  match client_get_current_playback net with
  | (.ok (some current_state), fetch_trace) =>
      let new_shuffle_state := !current_state.shuffle_state
      match net.shuffle_put with
      | .ok _ => (.ok (), fetch_trace ++ [NetCall.put_shuffle new_shuffle_state])
      | .error status =>
          (.error ("Error al cambiar shuffle: " ++ status),
           fetch_trace ++ [NetCall.put_shuffle new_shuffle_state])
  | (.ok none, fetch_trace) => (.error ("No hay reproducción activa"), fetch_trace)
  | (.error e, fetch_trace) => (.error e, fetch_trace)

/-- The repeat-state cycle, the match inside SpotifyClient::toggle_repeat,
src/spotify/client.rs lines 464-469: off to context to track to off,
anything else to off. -/
def cycle_repeat_state (s : String) : String :=
  if s = "off" then "context"
  else if s = "context" then "track"
  else if s = "track" then "off"
  else "off"

/-- SpotifyClient::toggle_repeat, src/spotify/client.rs lines 461-487:
like toggle_shuffle, it first fetches current playback over the
network, then issues the repeat PUT with the cycled state. -/
def client_toggle_repeat (net : Net) : Except String Unit × List NetCall :=
  match client_get_current_playback net with
  | (.ok (some current_state), fetch_trace) =>
      let new_repeat_state := cycle_repeat_state current_state.repeat_state
      match net.repeat_put with
      | .ok _ => (.ok (), fetch_trace ++ [NetCall.put_repeat new_repeat_state])
      | .error status =>
          (.error ("Error al cambiar repeat: " ++ status),
           fetch_trace ++ [NetCall.put_repeat new_repeat_state])
  | (.ok none, fetch_trace) => (.error ("No hay reproducción activa"), fetch_trace)
  | (.error e, fetch_trace) => (.error e, fetch_trace)

/-! ## Interactive loop state (src/ui/mod.rs) -/

/-- InputMode, src/ui/mod.rs lines 19-24. -/
inductive InputMode where
  | normal
  | search
  | volume
deriving Repr, DecidableEq

/-- AppState (the active screen), src/ui/mod.rs lines 26-32. -/
inductive AppState where
  | player
  | search
  | playlists
  | favorites
deriving Repr, DecidableEq

/-- App, src/ui/mod.rs lines 34-51.  The spotify_client field is
replaced by the Net oracle threaded through the operations, and
last_update (a wall-clock Instant used only for poll cadence and the
footer) is omitted; each ListState is its selected index. -/
structure App where
  current_playback : Option PlaybackState
  input_mode : InputMode
  app_state : AppState
  search_input : String
  search_results : List Track
  search_list_state : Option Nat
  volume_input : String
  error_message : Option String
  success_message : Option String
  should_quit : Bool
  playlists : List Playlist
  playlist_list_state : Option Nat
  favorites : List Track
  favorites_list_state : Option Nat
deriving Repr, DecidableEq

/-- App::new, src/ui/mod.rs lines 54-76: ListState::default() has no
selection, but the search list state is explicitly set to Some(0). -/
def App.new : App where
  current_playback := none
  input_mode := InputMode.normal
  app_state := AppState.player
  search_input := ""
  search_results := []
  search_list_state := some 0
  volume_input := ""
  error_message := none
  success_message := none
  should_quit := false
  playlists := []
  playlist_list_state := none
  favorites := []
  favorites_list_state := none

/-- App::update_playback_state, src/ui/mod.rs lines 133-143: a
successful poll replaces the snapshot wholesale and clears the error
message; a failed poll only sets the error message. -/
def App.update_playback_state (a : App) (net : Net) : App × List NetCall :=
  match client_get_current_playback net with
  | (.ok playback, t) =>
      ({ a with current_playback := playback, error_message := none }, t)
  | (.error e, t) =>
      ({ a with error_message := some ("Error al actualizar reproducción: " ++ e) }, t)

/-- App::toggle_playback, src/ui/mod.rs lines 275-294. -/
def App.toggle_playback (a : App) (net : Net) : App × List NetCall :=
  match a.current_playback with
  | some playback =>
      let (result, t) := if playback.is_playing then client_pause net else client_play net
      match result with
      | .ok _ =>
          let msg := if playback.is_playing then "Pausado" else "Reproduciendo"
          let a1 := { a with success_message := some msg }
          let (a2, t2) := a1.update_playback_state net
          (a2, t ++ t2)
      | .error e => ({ a with error_message := some ("Error: " ++ e) }, t)
  | none => ({ a with error_message := some ("No hay reproducción activa") }, [])

/-- App::next_track, src/ui/mod.rs lines 296-305 (the 500ms settle
sleep has no state effect and is dropped). -/
def App.next_track (a : App) (net : Net) : App × List NetCall :=
  match client_next_track net with
  | (.ok _, t) =>
      let a1 := { a with success_message := some ("Siguiente canción") }
      let (a2, t2) := a1.update_playback_state net
      (a2, t ++ t2)
  | (.error e, t) => ({ a with error_message := some ("Error: " ++ e) }, t)

/-- App::previous_track, src/ui/mod.rs lines 307-316. -/
def App.previous_track (a : App) (net : Net) : App × List NetCall :=
  match client_previous_track net with
  | (.ok _, t) =>
      let a1 := { a with success_message := some ("Canción anterior") }
      let (a2, t2) := a1.update_playback_state net
      (a2, t ++ t2)
  | (.error e, t) => ({ a with error_message := some ("Error: " ++ e) }, t)

/-- App::toggle_shuffle, src/ui/mod.rs lines 318-326. -/
def App.toggle_shuffle (a : App) (net : Net) : App × List NetCall :=
  match client_toggle_shuffle net with
  | (.ok _, t) =>
      let a1 := { a with success_message := some ("Shuffle cambiado") }
      let (a2, t2) := a1.update_playback_state net
      (a2, t ++ t2)
  | (.error e, t) => ({ a with error_message := some ("Error: " ++ e) }, t)

/-- App::toggle_repeat, src/ui/mod.rs lines 328-336. -/
def App.toggle_repeat (a : App) (net : Net) : App × List NetCall :=
  match client_toggle_repeat net with
  | (.ok _, t) =>
      let a1 := { a with success_message := some ("Modo repetición cambiado") }
      let (a2, t2) := a1.update_playback_state net
      (a2, t ++ t2)
  | (.error e, t) => ({ a with error_message := some ("Error: " ++ e) }, t)

/-- App::set_volume, src/ui/mod.rs lines 338-346. -/
def App.set_volume (a : App) (volume : Nat) (net : Net) : App × List NetCall :=
  match client_set_volume net volume with
  | (.ok _, t) =>
      let a1 := { a with success_message := some ("Volumen: " ++ toString volume ++ "%") }
      let (a2, t2) := a1.update_playback_state net
      (a2, t ++ t2)
  | (.error e, t) => ({ a with error_message := some ("Error: " ++ e) }, t)

/-- App::perform_search, src/ui/mod.rs lines 348-357: on success the
result list is replaced, the selection is set to Some(0), and the
success message counts the new list. -/
def App.perform_search (a : App) (net : Net) : App × List NetCall :=
  match client_search_tracks net a.search_input 20 with
  | (.ok tracks, t) =>
      ({ a with
           search_results := tracks,
           search_list_state := some 0,
           success_message :=
             some ("Encontradas " ++ toString tracks.length ++ " canciones") }, t)
  | (.error e, t) =>
      ({ a with error_message := some ("Error en búsqueda: " ++ e) }, t)

/-- App::previous_search_result, src/ui/mod.rs lines 359-373. -/
def App.previous_search_result (a : App) : App :=
  if !a.search_results.isEmpty then
    let i :=
      match a.search_list_state with
      | some i => if i = 0 then a.search_results.length - 1 else i - 1
      | none => 0
    { a with search_list_state := some i }
  else a

/-- App::next_search_result, src/ui/mod.rs lines 375-389. -/
def App.next_search_result (a : App) : App :=
  if !a.search_results.isEmpty then
    let i :=
      match a.search_list_state with
      | some i => if i ≥ a.search_results.length - 1 then 0 else i + 1
      | none => 0
    { a with search_list_state := some i }
  else a

/-- App::play_selected_track, src/ui/mod.rs lines 391-405. -/
def App.play_selected_track (a : App) (net : Net) : App × List NetCall :=
  match a.search_list_state with
  | some i =>
      match a.search_results.get? i with
      | some track =>
          let track_uri := "spotify:track:" ++ track.id
          match client_play_track net track_uri with
          | (.ok _, t) =>
              let a1 := { a with success_message := some ("Reproduciendo: " ++ track.name) }
              let (a2, t2) := a1.update_playback_state net
              (a2, t ++ t2)
          | (.error e, t) => ({ a with error_message := some ("Error: " ++ e) }, t)
      | none => (a, [])
  | none => (a, [])

/-- App::load_playlists, src/ui/mod.rs lines 407-416: on success the
playlist list is replaced and its selection set to Some(0). -/
def App.load_playlists (a : App) (net : Net) : App × List NetCall :=
  match client_get_user_playlists net with
  | (.ok playlists, t) =>
      ({ a with
           playlists := playlists,
           playlist_list_state := some 0,
           success_message :=
             some ("Cargadas " ++ toString playlists.length ++ " playlists") }, t)
  | (.error e, t) =>
      ({ a with error_message := some ("Error al cargar playlists: " ++ e) }, t)

/-- App::load_favorites, src/ui/mod.rs lines 418-427. -/
def App.load_favorites (a : App) (net : Net) : App × List NetCall :=
  match client_get_saved_tracks net with
  | (.ok tracks, t) =>
      ({ a with
           favorites := tracks,
           favorites_list_state := some 0,
           success_message :=
             some ("Cargadas " ++ toString tracks.length ++ " canciones favoritas") }, t)
  | (.error e, t) =>
      ({ a with error_message := some ("Error al cargar favoritos: " ++ e) }, t)

/-- App::previous_playlist, src/ui/mod.rs lines 429-443. -/
def App.previous_playlist (a : App) : App :=
  if !a.playlists.isEmpty then
    let i :=
      match a.playlist_list_state with
      | some i => if i = 0 then a.playlists.length - 1 else i - 1
      | none => 0
    { a with playlist_list_state := some i }
  else a

/-- App::next_playlist, src/ui/mod.rs lines 445-459. -/
def App.next_playlist (a : App) : App :=
  if !a.playlists.isEmpty then
    let i :=
      match a.playlist_list_state with
      | some i => if i ≥ a.playlists.length - 1 then 0 else i + 1
      | none => 0
    { a with playlist_list_state := some i }
  else a

/-- App::previous_favorite, src/ui/mod.rs lines 461-475. -/
def App.previous_favorite (a : App) : App :=
  if !a.favorites.isEmpty then
    let i :=
      match a.favorites_list_state with
      | some i => if i = 0 then a.favorites.length - 1 else i - 1
      | none => 0
    { a with favorites_list_state := some i }
  else a

/-- App::next_favorite, src/ui/mod.rs lines 477-491. -/
def App.next_favorite (a : App) : App :=
  if !a.favorites.isEmpty then
    let i :=
      match a.favorites_list_state with
      | some i => if i ≥ a.favorites.length - 1 then 0 else i + 1
      | none => 0
    { a with favorites_list_state := some i }
  else a

/-- App::play_selected_playlist, src/ui/mod.rs lines 493-507. -/
def App.play_selected_playlist (a : App) (net : Net) : App × List NetCall :=
  match a.playlist_list_state with
  | some i =>
      match a.playlists.get? i with
      | some playlist =>
          let playlist_uri := "spotify:playlist:" ++ playlist.id
          match client_play_playlist net playlist_uri with
          | (.ok _, t) =>
              let a1 := { a with success_message := some ("Reproduciendo playlist: " ++ playlist.name) }
              let (a2, t2) := a1.update_playback_state net
              (a2, t ++ t2)
          | (.error e, t) => ({ a with error_message := some ("Error: " ++ e) }, t)
      | none => (a, [])
  | none => (a, [])

/-- App::play_selected_favorite, src/ui/mod.rs lines 509-523. -/
def App.play_selected_favorite (a : App) (net : Net) : App × List NetCall :=
  match a.favorites_list_state with
  | some i =>
      match a.favorites.get? i with
      | some track =>
          let track_uri := "spotify:track:" ++ track.id
          match client_play_track net track_uri with
          | (.ok _, t) =>
              let a1 := { a with success_message := some ("Reproduciendo: " ++ track.name) }
              let (a2, t2) := a1.update_playback_state net
              (a2, t ++ t2)
          | (.error e, t) => ({ a with error_message := some ("Error: " ++ e) }, t)
      | none => (a, [])
  | none => (a, [])

/-! ## Key handling (src/ui/mod.rs) -/

/-- The crossterm key codes the handlers match on. -/
inductive KeyCode where
  | char (c : Char)
  | up
  | down
  | left
  | right
  | enter
  | esc
  | backspace
  | other
deriving Repr, DecidableEq

/-- A key event: its code and whether CONTROL is held. -/
structure KeyEvent where
  code : KeyCode
  ctrl : Bool
deriving Repr, DecidableEq

/-- Rust u8::from_str digit accumulation with the 255 overflow bound
(core::num::from_str_radix at radix 10: each byte must be an ASCII
digit and every intermediate value must fit in u8). -/
def parse_u8_digits : List Char → Nat → Option Nat
  | [], acc => some acc
  | c :: rest, acc =>
      if c.isDigit then
        let acc1 := acc * 10 + (c.toNat - Char.toNat '0')
        if acc1 ≤ 255 then parse_u8_digits rest acc1 else none
      else none

/-- Rust str::parse::\<u8\> as used at src/ui/mod.rs line 248: empty
input fails, a leading plus sign is allowed if digits follow, a minus
sign and any non-ASCII-digit character fail, and values above 255
overflow. -/
def parse_u8 (s : String) : Option Nat :=
  match s.data with
  | [] => none
  | '+' :: rest => if rest.isEmpty then none else parse_u8_digits rest 0
  | cs => parse_u8_digits cs 0

/-- Character guard of the Volume digit branch, src/ui/mod.rs line 262.
The source uses Rust char::is_numeric; this models its ASCII-digit
subset, the only characters any claim exercises on this path. -/
def is_numeric_char (c : Char) : Bool := c.isDigit

/-- App::handle_normal_key_event, src/ui/mod.rs lines 156-220.  The
returned Bool is the should-quit result of the handler. -/
def App.handle_normal_key_event (a : App) (net : Net) (key : KeyEvent) :
    (App × List NetCall) × Bool :=
  match key.code with
  | .char 'q' => ((a, []), true)
  | .char 'c' => if key.ctrl then ((a, []), true) else ((a, []), false)
  | .char ' ' => (a.toggle_playback net, false)
  | .char 'n' => (a.next_track net, false)
  | .right => (a.next_track net, false)
  | .char 'p' => (a.previous_track net, false)
  | .left => (a.previous_track net, false)
  | .char 's' => (a.toggle_shuffle net, false)
  | .char 'r' => (a.toggle_repeat net, false)
  | .char '1' => (({ a with app_state := AppState.player }, []), false)
  | .char '2' => (({ a with app_state := AppState.search }, []), false)
  | .char '3' => (App.load_playlists { a with app_state := AppState.playlists } net, false)
  | .char '4' => (App.load_favorites { a with app_state := AppState.favorites } net, false)
  | .char '/' => (({ a with input_mode := InputMode.search, search_input := "" }, []), false)
  | .char 'v' => (({ a with input_mode := InputMode.volume, volume_input := "" }, []), false)
  | .up =>
      match a.app_state with
      | .search => ((a.previous_search_result, []), false)
      | .playlists => ((a.previous_playlist, []), false)
      | .favorites => ((a.previous_favorite, []), false)
      | _ => ((a, []), false)
  | .down =>
      match a.app_state with
      | .search => ((a.next_search_result, []), false)
      | .playlists => ((a.next_playlist, []), false)
      | .favorites => ((a.next_favorite, []), false)
      | _ => ((a, []), false)
  | .enter =>
      match a.app_state with
      | .search => (a.play_selected_track net, false)
      | .playlists => (a.play_selected_playlist net, false)
      | .favorites => (a.play_selected_favorite net, false)
      | _ => ((a, []), false)
  | _ => ((a, []), false)

/-- App::handle_search_key_event, src/ui/mod.rs lines 222-243: Enter
commits (searching only when the buffer is non-empty) and always
returns to Normal on the Search screen. -/
def App.handle_search_key_event (a : App) (net : Net) (key : KeyEvent) :
    (App × List NetCall) × Bool :=
  match key.code with
  | .enter =>
      let (a1, t) := if !a.search_input.isEmpty then a.perform_search net else (a, [])
      (({ a1 with input_mode := InputMode.normal, app_state := AppState.search }, t), false)
  | .esc => (({ a with input_mode := InputMode.normal }, []), false)
  | .char c => (({ a with search_input := a.search_input.push c }, []), false)
  | .backspace => (({ a with search_input := a.search_input.dropRight 1 }, []), false)
  | _ => ((a, []), false)

/-- App::handle_volume_key_event, src/ui/mod.rs lines 245-273: Enter
parses the buffer as a u8, rejects values above 100 or unparsable
input with a local error and no client call, and always returns to
Normal. -/
def App.handle_volume_key_event (a : App) (net : Net) (key : KeyEvent) :
    (App × List NetCall) × Bool :=
  match key.code with
  | .enter =>
      let (a1, t) :=
        match parse_u8 a.volume_input with
        | some volume =>
            if volume ≤ 100 then a.set_volume volume net
            else ({ a with error_message := some ("El volumen debe estar entre 0 y 100") }, [])
        | none => ({ a with error_message := some ("Volumen inválido") }, [])
      (({ a1 with input_mode := InputMode.normal }, t), false)
  | .esc => (({ a with input_mode := InputMode.normal }, []), false)
  | .char c =>
      if is_numeric_char c then
        ((if a.volume_input.length < 3
          then { a with volume_input := a.volume_input.push c }
          else a, []), false)
      else ((a, []), false)
  | .backspace => (({ a with volume_input := a.volume_input.dropRight 1 }, []), false)
  | _ => ((a, []), false)

/-- App::handle_key_event, src/ui/mod.rs lines 145-154: it clears the
success message (and only that message), then dispatches on the input
mode. -/
def App.handle_key_event (a : App) (net : Net) (key : KeyEvent) :
    (App × List NetCall) × Bool :=
  let a1 := { a with success_message := none }
  match a1.input_mode with
  | .normal => a1.handle_normal_key_event net key
  | .search => a1.handle_search_key_event net key
  | .volume => a1.handle_volume_key_event net key

/-- True on the volume-set request, used to count setVolume calls in a
trace. -/
def NetCall.is_put_volume : NetCall → Bool
  | .put_volume _ => true
  | _ => false

/-! ## Concrete sample values, used to instantiate the theorems -/

def sample_external_urls : ExternalUrls where
  spotify := "https://open.spotify.com/x"

def sample_album : Album where
  id := "alb1"
  name := "Album"
  artists := []
  images := []
  release_date := "2020-01-01"
  external_urls := sample_external_urls

def sample_track : Track where
  id := "trk1"
  name := "Song"
  artists := []
  album := sample_album
  duration_ms := 180000
  explicit := false
  external_urls := sample_external_urls
  popularity := 10

def sample_playlist : Playlist where
  id := "pl1"
  name := "Mix"
  description := none
  images := []
  owner := { id := "own1", display_name := none, external_urls := sample_external_urls }
  public := none
  tracks := { href := "h", total := 3 }
  external_urls := sample_external_urls

def sample_device : Device where
  id := none
  is_active := true
  is_private_session := false
  is_restricted := false
  name := "Desk"
  device_type := "Computer"
  volume_percent := some 50

def sample_actions : Actions where
  interrupting_playback := none
  pausing := none
  resuming := none
  seeking := none
  skipping_next := none
  skipping_prev := none
  toggling_repeat_context := none
  toggling_shuffle := none
  toggling_repeat_track := none
  transferring_playback := none

/-- A playback snapshot with the given shuffle flag and repeat state. -/
def sample_playback (shuffle : Bool) (rep : String) : PlaybackState where
  device := sample_device
  repeat_state := rep
  shuffle_state := shuffle
  context := none
  timestamp := 0
  progress_ms := none
  is_playing := true
  item := none
  currently_playing_type := "track"
  actions := sample_actions

/-- Oracle where every endpoint answers successfully, with no active
playback and empty collections. -/
def net_all_ok : Net where
  playback := .ok none
  play := .ok ()
  pause := .ok ()
  next_track := .ok ()
  previous_track := .ok ()
  set_volume := .ok ()
  search_tracks := .ok []
  play_track := .ok ()
  user_playlists := .ok []
  saved_tracks := .ok []
  play_playlist := .ok ()
  shuffle_put := .ok ()
  repeat_put := .ok ()

/-- Oracle where the playback poll fails with HTTP 403. -/
def net_poll_fails : Net := { net_all_ok with playback := .error ("403 Forbidden") }

/-- Oracle whose playback fetch reports an active playback with
shuffle on and repeat off. -/
def net_fetch_shuffle_true : Net :=
  { net_all_ok with playback := .ok (some (sample_playback true "off")) }

def sample_config : Config where
  client_id := "id"
  client_secret := "secret"
  redirect_uri := "http://127.0.0.1:8888/callback"
  access_token := none
  refresh_token := some "old-refresh"
  token_expires_at := none

/-- A config holding a token that expires at epoch second 50. -/
def sample_expiring_config : Config :=
  { sample_config with access_token := some "tok", token_expires_at := some 50 }

def sample_token_response : TokenResponse where
  access_token := "tok"
  token_type := "Bearer"
  expires_in := 3600
  refresh_token := none
  scope := "user-read-playback-state"

/-- The config produced by a successful code exchange of sample_config
with sample_token_response at now = 0. -/
def sample_exchanged : Config :=
  { sample_config with
      access_token := some "tok", refresh_token := none, token_expires_at := some 3600 }

/-- The config produced by a successful refresh of sample_config with
sample_token_response at now = 0 (the stored refresh token is kept). -/
def sample_refreshed : Config :=
  { sample_config with access_token := some "tok", token_expires_at := some 3600 }

/-- An app with non-empty lists and a mid-list search selection. -/
def app_nav : App :=
  { App.new with
      search_results := [sample_track, sample_track]
      search_list_state := some 1
      playlists := [sample_playlist]
      playlist_list_state := some 0
      favorites := [sample_track]
      favorites_list_state := some 0 }

/-- An app carrying both transient messages. -/
def app_messages : App :=
  { App.new with error_message := some ("E"), success_message := some ("S") }

/-- An app whose last-known snapshot has shuffle off. -/
def app_stale_shuffle : App :=
  { App.new with current_playback := some (sample_playback false "off") }

/-! ## Theorems -/

/-- Claim C10: App::new returns an initial state with inputMode Normal,
activeScreen Player, quit flag unset, no playback snapshot, all three
lists empty, the search selection initialized to Some(0), and the
playlist and favorites selections unset — so the fresh App carries a
Some(0) selection over an empty search list. -/
theorem app_new_initial_state :
    App.new.input_mode = InputMode.normal ∧
    App.new.app_state = AppState.player ∧
    App.new.should_quit = false ∧
    App.new.current_playback = none ∧
    App.new.search_results = [] ∧
    App.new.playlists = [] ∧
    App.new.favorites = [] ∧
    App.new.search_list_state = some 0 ∧
    App.new.playlist_list_state = none ∧
    App.new.favorites_list_state = none :=
  ⟨rfl, rfl, rfl, rfl, rfl, rfl, rfl, rfl, rfl, rfl⟩

/-- Claim C1: every successful authorization-code exchange and every
successful refresh leaves the session with access token and expiry
both present (never one without the other), and on refresh a returned
refresh token replaces the stored one while the stored one is kept
when the response carries none. -/
theorem token_success_fields_paired (c : Config) (tr : TokenResponse) (now : Int) :
    (∀ c1, exchange_code_for_token c (.ok tr) now = .ok c1 →
      c1.access_token.isSome = true ∧ c1.token_expires_at.isSome = true) ∧
    (∀ c1, refresh_access_token c (.ok tr) now = .ok c1 →
      c1.access_token.isSome = true ∧ c1.token_expires_at.isSome = true ∧
      (∀ r, tr.refresh_token = some r → c1.refresh_token = some r) ∧
      (tr.refresh_token = none → c1.refresh_token = c.refresh_token)) := by
  constructor
  · intro c1 h
    simp only [exchange_code_for_token, Except.ok.injEq] at h
    subst h
    exact ⟨rfl, rfl⟩
  · intro c1 h
    simp only [refresh_access_token, Except.ok.injEq] at h
    subst h
    refine ⟨rfl, rfl, ?_, ?_⟩
    · intro r hr
      simp [hr]
    · intro hr
      simp [hr]

/-- Witness for token_success_fields_paired at sample_config,
sample_token_response, now = 0. -/
theorem token_success_fields_paired_witness :
    (exchange_code_for_token sample_config (.ok sample_token_response) 0
        = .ok sample_exchanged ∧
      sample_exchanged.access_token.isSome = true ∧
      sample_exchanged.token_expires_at.isSome = true) ∧
    (refresh_access_token sample_config (.ok sample_token_response) 0
        = .ok sample_refreshed ∧
      sample_refreshed.refresh_token = sample_config.refresh_token) := by
  have h := token_success_fields_paired sample_config sample_token_response 0
  refine ⟨⟨rfl, ?_, ?_⟩, ⟨rfl, ?_⟩⟩
  · exact (h.1 sample_exchanged rfl).1
  · exact (h.1 sample_exchanged rfl).2
  · exact (h.2 sample_refreshed rfl).2.2.2 rfl

/-- Claim C2: is_token_valid is false when the access token or the
expiry is unset, false when the expiry is at most now + 60, and true
exactly when both fields are set and the expiry is strictly more than
60 seconds in the future; in the embedding it is a pure function of
the config and the clock value. -/
theorem is_token_valid_spec (c : Config) (now : Int) :
    ((c.access_token = none ∨ c.token_expires_at = none) →
      c.is_token_valid now = false) ∧
    (∀ e, c.token_expires_at = some e → e ≤ now + 60 →
      c.is_token_valid now = false) ∧
    (c.is_token_valid now = true ↔
      c.access_token.isSome = true ∧
      ∃ e, c.token_expires_at = some e ∧ now + 60 < e) := by
  rcases hA : c.access_token with _ | t <;> rcases hE : c.token_expires_at with _ | e <;>
    simp only [Config.is_token_valid, hA, hE] <;>
    refine ⟨?_, ?_, ?_⟩ <;> simp <;> omega

/-- Witness for is_token_valid_spec: unset access token, and a token
expiring within the 60-second margin, are both invalid. -/
theorem is_token_valid_spec_witness :
    sample_config.is_token_valid 0 = false ∧
    sample_expiring_config.is_token_valid 0 = false := by
  constructor
  · exact (is_token_valid_spec sample_config 0).1 (Or.inl rfl)
  · exact (is_token_valid_spec sample_expiring_config 0).2.1 50 rfl (by norm_num)

/-- Claim C3: when the periodic playback poll fails, the stored
playback snapshot is left untouched (never cleared or partially
updated) and the only state change is the transient error message. -/
theorem poll_failure_keeps_snapshot (a : App) (net : Net) (status : String)
    (h : net.playback = .error status) :
    (a.update_playback_state net).1 =
      { a with error_message := some ("Error al actualizar reproducción: "
          ++ ("Error al obtener estado de reproducción: " ++ status)) } ∧
    (a.update_playback_state net).1.current_playback = a.current_playback ∧
    (a.update_playback_state net).1.success_message = a.success_message := by
  unfold App.update_playback_state client_get_current_playback
  rw [h]
  exact ⟨rfl, rfl, rfl⟩

/-- Witness for poll_failure_keeps_snapshot at app_stale_shuffle and a
403 poll failure: the snapshot survives. -/
theorem poll_failure_keeps_snapshot_witness :
    (app_stale_shuffle.update_playback_state net_poll_fails).1.current_playback
      = app_stale_shuffle.current_playback ∧
    (app_stale_shuffle.update_playback_state net_poll_fails).1.current_playback
      = some (sample_playback false "off") := by
  refine ⟨?_, rfl⟩
  exact (poll_failure_keeps_snapshot app_stale_shuffle net_poll_fails "403 Forbidden" rfl).2.1

/-- Claim C6: the repeat-state cycle maps off to context, context to
track, track to off — so three applications are the identity on those
three values — and maps every other string to off; it is a pure
function. -/
theorem cycle_repeat_spec :
    cycle_repeat_state "off" = "context" ∧
    cycle_repeat_state "context" = "track" ∧
    cycle_repeat_state "track" = "off" ∧
    (∀ s, s = "off" ∨ s = "context" ∨ s = "track" →
      cycle_repeat_state (cycle_repeat_state (cycle_repeat_state s)) = s) ∧
    (∀ s, s ≠ "off" → s ≠ "context" → s ≠ "track" → cycle_repeat_state s = "off") := by
  refine ⟨by decide, by decide, by decide, ?_, ?_⟩
  · rintro s (rfl | rfl | rfl) <;> decide
  · intro s h1 h2 h3
    simp [cycle_repeat_state, h1, h2, h3]

/-- Witness for cycle_repeat_spec: the three-cycle at "track" and the
unknown-input default at "shuffle". -/
theorem cycle_repeat_spec_witness :
    cycle_repeat_state (cycle_repeat_state (cycle_repeat_state "track")) = "track" ∧
    cycle_repeat_state "shuffle" = "off" := by
  constructor
  · exact cycle_repeat_spec.2.2.2.1 "track" (Or.inr (Or.inr rfl))
  · exact cycle_repeat_spec.2.2.2.2 "shuffle" (by decide) (by decide) (by decide)

/-- Generic wrap-around iteration: a step function that sends an
in-range selection i to (i + 1) mod the (preserved) list length moves
it k steps forward mod the length after k applications. -/
theorem iterate_wrap_step (f : App → App) (len : App → Nat) (sel : App → Option Nat)
    (hstep : ∀ x i, sel x = some i → i < len x →
      sel (f x) = some ((i + 1) % len x) ∧ len (f x) = len x) (k : Nat) :
    ∀ (x : App) (i : Nat), sel x = some i → i < len x →
      sel (f^[k] x) = some ((i + k) % len x) ∧ len (f^[k] x) = len x := by
  induction k with
  | zero =>
      intro x i h hi
      simpa [Nat.mod_eq_of_lt hi] using h
  | succ k ih =>
      intro x i h hi
      obtain ⟨h1, h2⟩ := hstep x i h hi
      have hpos : 0 < len x := Nat.lt_of_le_of_lt (Nat.zero_le i) hi
      have hlt : (i + 1) % len x < len x := Nat.mod_lt _ hpos
      have hih := ih (f x) ((i + 1) % len x) h1 (by rw [h2]; exact hlt)
      rw [h2] at hih
      rw [Function.iterate_succ_apply]
      refine ⟨?_, hih.2⟩
      rw [hih.1, Nat.mod_add_mod]
      have harg : i + 1 + k = i + (k + 1) := by omega
      rw [harg]

/-- Step behavior of next_search_result on an in-range selection. -/
theorem next_search_result_step (a : App) (i : Nat)
    (h : a.search_list_state = some i) (hi : i < a.search_results.length) :
    (a.next_search_result).search_list_state = some ((i + 1) % a.search_results.length) ∧
    (a.next_search_result).search_results.length = a.search_results.length := by
  have hne : a.search_results.isEmpty = false := by
    cases hs : a.search_results with
    | nil => rw [hs] at hi; simp at hi
    | cons x xs => simp [hs]
  refine ⟨?_, by simp [App.next_search_result, hne, h]⟩
  simp only [App.next_search_result, hne, Bool.not_false, if_true, h]
  by_cases hcase : i ≥ a.search_results.length - 1
  · have hi1 : i + 1 = a.search_results.length := by omega
    simp [hcase, hi1, Nat.mod_self]
  · have hi1 : i + 1 < a.search_results.length := by omega
    simp [hcase, Nat.mod_eq_of_lt hi1]

/-- Step behavior of next_playlist on an in-range selection. -/
theorem next_playlist_step (a : App) (i : Nat)
    (h : a.playlist_list_state = some i) (hi : i < a.playlists.length) :
    (a.next_playlist).playlist_list_state = some ((i + 1) % a.playlists.length) ∧
    (a.next_playlist).playlists.length = a.playlists.length := by
  have hne : a.playlists.isEmpty = false := by
    cases hs : a.playlists with
    | nil => rw [hs] at hi; simp at hi
    | cons x xs => simp [hs]
  refine ⟨?_, by simp [App.next_playlist, hne, h]⟩
  simp only [App.next_playlist, hne, Bool.not_false, if_true, h]
  by_cases hcase : i ≥ a.playlists.length - 1
  · have hi1 : i + 1 = a.playlists.length := by omega
    simp [hcase, hi1, Nat.mod_self]
  · have hi1 : i + 1 < a.playlists.length := by omega
    simp [hcase, Nat.mod_eq_of_lt hi1]

/-- Step behavior of next_favorite on an in-range selection. -/
theorem next_favorite_step (a : App) (i : Nat)
    (h : a.favorites_list_state = some i) (hi : i < a.favorites.length) :
    (a.next_favorite).favorites_list_state = some ((i + 1) % a.favorites.length) ∧
    (a.next_favorite).favorites.length = a.favorites.length := by
  have hne : a.favorites.isEmpty = false := by
    cases hs : a.favorites with
    | nil => rw [hs] at hi; simp at hi
    | cons x xs => simp [hs]
  refine ⟨?_, by simp [App.next_favorite, hne, h]⟩
  simp only [App.next_favorite, hne, Bool.not_false, if_true, h]
  by_cases hcase : i ≥ a.favorites.length - 1
  · have hi1 : i + 1 = a.favorites.length := by omega
    simp [hcase, hi1, Nat.mod_self]
  · have hi1 : i + 1 < a.favorites.length := by omega
    simp [hcase, Nat.mod_eq_of_lt hi1]

/-- Claim C5: on each of the three lists, navigation is circular and a
no-op on the empty list: from any in-range start index, next applied
length-many times returns to that index; previous from index 0 lands
on the last index; on an empty list both moves leave the app
unchanged. -/
theorem list_nav_wraps (a : App) (i : Nat) :
    (a.search_list_state = some i → i < a.search_results.length →
      ((App.next_search_result)^[a.search_results.length] a).search_list_state = some i) ∧
    (a.search_list_state = some 0 → a.search_results ≠ [] →
      (a.previous_search_result).search_list_state = some (a.search_results.length - 1)) ∧
    (a.search_results = [] → a.next_search_result = a ∧ a.previous_search_result = a) ∧
    (a.playlist_list_state = some i → i < a.playlists.length →
      ((App.next_playlist)^[a.playlists.length] a).playlist_list_state = some i) ∧
    (a.playlist_list_state = some 0 → a.playlists ≠ [] →
      (a.previous_playlist).playlist_list_state = some (a.playlists.length - 1)) ∧
    (a.playlists = [] → a.next_playlist = a ∧ a.previous_playlist = a) ∧
    (a.favorites_list_state = some i → i < a.favorites.length →
      ((App.next_favorite)^[a.favorites.length] a).favorites_list_state = some i) ∧
    (a.favorites_list_state = some 0 → a.favorites ≠ [] →
      (a.previous_favorite).favorites_list_state = some (a.favorites.length - 1)) ∧
    (a.favorites = [] → a.next_favorite = a ∧ a.previous_favorite = a) := by
  refine ⟨?_, ?_, ?_, ?_, ?_, ?_, ?_, ?_, ?_⟩
  · intro h hi
    have hgen := iterate_wrap_step App.next_search_result
      (fun x => x.search_results.length) (fun x => x.search_list_state)
      next_search_result_step a.search_results.length a i h hi
    simpa [Nat.add_mod_right, Nat.mod_eq_of_lt hi] using hgen.1
  · intro h hne
    have hempty : a.search_results.isEmpty = false := by
      cases hs : a.search_results with
      | nil => exact absurd hs hne
      | cons x xs => simp [hs]
    simp [App.previous_search_result, hempty, h]
  · intro h
    constructor <;> simp [App.next_search_result, App.previous_search_result, h]
  · intro h hi
    have hgen := iterate_wrap_step App.next_playlist
      (fun x => x.playlists.length) (fun x => x.playlist_list_state)
      next_playlist_step a.playlists.length a i h hi
    simpa [Nat.add_mod_right, Nat.mod_eq_of_lt hi] using hgen.1
  · intro h hne
    have hempty : a.playlists.isEmpty = false := by
      cases hs : a.playlists with
      | nil => exact absurd hs hne
      | cons x xs => simp [hs]
    simp [App.previous_playlist, hempty, h]
  · intro h
    constructor <;> simp [App.next_playlist, App.previous_playlist, h]
  · intro h hi
    have hgen := iterate_wrap_step App.next_favorite
      (fun x => x.favorites.length) (fun x => x.favorites_list_state)
      next_favorite_step a.favorites.length a i h hi
    simpa [Nat.add_mod_right, Nat.mod_eq_of_lt hi] using hgen.1
  · intro h hne
    have hempty : a.favorites.isEmpty = false := by
      cases hs : a.favorites with
      | nil => exact absurd hs hne
      | cons x xs => simp [hs]
    simp [App.previous_favorite, hempty, h]
  · intro h
    constructor <;> simp [App.next_favorite, App.previous_favorite, h]

/-- Witness for list_nav_wraps: on app_nav, next twice over the
two-element search list returns to index 1, previous from 0 on the
one-playlist list lands on index 0, and on the fresh empty app both
favorite moves are no-ops. -/
theorem list_nav_wraps_witness :
    ((App.next_search_result)^[app_nav.search_results.length] app_nav).search_list_state
      = some 1 ∧
    (app_nav.previous_playlist).playlist_list_state
      = some (app_nav.playlists.length - 1) ∧
    (App.new.next_favorite = App.new ∧ App.new.previous_favorite = App.new) := by
  refine ⟨?_, ?_, ?_⟩
  · exact (list_nav_wraps app_nav 1).1 rfl (by decide)
  · exact (list_nav_wraps app_nav 0).2.2.2.2.1 rfl (by decide)
  · exact (list_nav_wraps App.new 0).2.2.2.2.2.2.2.2 rfl

/-- Claim C4: committing the volume buffer with Enter issues exactly
one setVolume call when the buffer parses as a u8 value in [0,100],
and for every other buffer sets a local error and issues no network
call at all; in both cases the mode returns to Normal. -/
theorem volume_commit_spec (a : App) (net : Net) :
    ((a.handle_volume_key_event net { code := KeyCode.enter, ctrl := false }).1.1.input_mode
      = InputMode.normal) ∧
    ((a.handle_volume_key_event net { code := KeyCode.enter, ctrl := false }).2 = false) ∧
    (match parse_u8 a.volume_input with
     | some v =>
         if v ≤ 100 then
           (a.handle_volume_key_event net { code := KeyCode.enter, ctrl := false }).1.2.filter
             NetCall.is_put_volume = [NetCall.put_volume v]
         else
           (a.handle_volume_key_event net { code := KeyCode.enter, ctrl := false }).1.2 = [] ∧
           (a.handle_volume_key_event net
             { code := KeyCode.enter, ctrl := false }).1.1.error_message
             = some ("El volumen debe estar entre 0 y 100")
     | none =>
         (a.handle_volume_key_event net { code := KeyCode.enter, ctrl := false }).1.2 = [] ∧
         (a.handle_volume_key_event net
           { code := KeyCode.enter, ctrl := false }).1.1.error_message
           = some ("Volumen inválido")) := by
  cases hp : parse_u8 a.volume_input with
  | none =>
      refine ⟨?_, ?_, ?_⟩ <;>
        simp [App.handle_volume_key_event, hp]
  | some v =>
      by_cases hv : v ≤ 100
      · refine ⟨?_, ?_, ?_⟩ <;>
          simp only [App.handle_volume_key_event, hp, hv, if_true] <;>
          cases hsv : net.set_volume <;>
            cases hpb : net.playback <;>
              simp [App.set_volume, client_set_volume, App.update_playback_state,
                client_get_current_playback, NetCall.is_put_volume, hsv, hpb, hv]
      · refine ⟨?_, ?_, ?_⟩ <;>
          simp [App.handle_volume_key_event, hp, hv]

/-- Claim C9 counterexample: with an error message present, handling
the screen-select key 1 (whose handler touches no messages) leaves the
error message in place — only the success message is cleared at the
start of the key-press cycle, refuting that both transient messages
are cleared before dispatch. -/
theorem key_error_not_cleared_cex :
    (app_messages.handle_key_event net_all_ok
      { code := KeyCode.char '1', ctrl := false }).1.1.error_message = some ("E") ∧
    (app_messages.handle_key_event net_all_ok
      { code := KeyCode.char '1', ctrl := false }).1.1.success_message = none ∧
    app_messages.error_message = some ("E") ∧
    app_messages.success_message = some ("S") :=
  ⟨rfl, rfl, rfl, rfl⟩

/-- Claim C9 as amended: at the start of every key-press handling
cycle only the success message is cleared before dispatch; the error
message is left unchanged by the clearing step, as observed through
handlers that do not touch messages (screen-select keys in Normal
mode, Escape in Search and Volume modes). -/
theorem key_clears_success_only (a : App) (net : Net) :
    (a.input_mode = InputMode.normal →
      (a.handle_key_event net { code := KeyCode.char '1', ctrl := false }).1.1.success_message
        = none ∧
      (a.handle_key_event net { code := KeyCode.char '1', ctrl := false }).1.1.error_message
        = a.error_message ∧
      (a.handle_key_event net { code := KeyCode.char '2', ctrl := false }).1.1.success_message
        = none ∧
      (a.handle_key_event net { code := KeyCode.char '2', ctrl := false }).1.1.error_message
        = a.error_message) ∧
    (a.input_mode = InputMode.search →
      (a.handle_key_event net { code := KeyCode.esc, ctrl := false }).1.1.success_message
        = none ∧
      (a.handle_key_event net { code := KeyCode.esc, ctrl := false }).1.1.error_message
        = a.error_message) ∧
    (a.input_mode = InputMode.volume →
      (a.handle_key_event net { code := KeyCode.esc, ctrl := false }).1.1.success_message
        = none ∧
      (a.handle_key_event net { code := KeyCode.esc, ctrl := false }).1.1.error_message
        = a.error_message) := by
  obtain ⟨cp, im, sc, si, sr, sls, vi, em, sm, sq, pl, plls, fav, favls⟩ := a
  refine ⟨?_, ?_, ?_⟩
  · intro h
    have h2 : im = InputMode.normal := h
    subst h2
    exact ⟨rfl, rfl, rfl, rfl⟩
  · intro h
    have h2 : im = InputMode.search := h
    subst h2
    exact ⟨rfl, rfl⟩
  · intro h
    have h2 : im = InputMode.volume := h
    subst h2
    exact ⟨rfl, rfl⟩

/-- Witness for key_clears_success_only at app_messages in Normal
mode. -/
theorem key_clears_success_only_witness :
    (app_messages.handle_key_event net_all_ok
      { code := KeyCode.char '1', ctrl := false }).1.1.success_message = none ∧
    (app_messages.handle_key_event net_all_ok
      { code := KeyCode.char '1', ctrl := false }).1.1.error_message
      = app_messages.error_message ∧
    (app_messages.handle_key_event net_all_ok
      { code := KeyCode.char '2', ctrl := false }).1.1.success_message = none ∧
    (app_messages.handle_key_event net_all_ok
      { code := KeyCode.char '2', ctrl := false }).1.1.error_message
      = app_messages.error_message :=
  (key_clears_success_only app_messages net_all_ok).1 rfl

/-- Claim C7 counterexample: a search whose fetch succeeds with zero
results leaves searchResults empty but the selection at Some(0), not
unset, and reports "Encontradas 0 canciones" — refuting that the
selection is reset to None when the fetched list is empty. -/
theorem search_empty_selection_cex :
    (App.new.perform_search net_all_ok).1.search_results = [] ∧
    (App.new.perform_search net_all_ok).1.search_list_state = some 0 ∧
    (App.new.perform_search net_all_ok).1.search_list_state ≠ none ∧
    (App.new.perform_search net_all_ok).1.success_message
      = some ("Encontradas 0 canciones") ∧
    (App.new.load_playlists net_all_ok).1.playlists = [] ∧
    (App.new.load_playlists net_all_ok).1.playlist_list_state = some 0 ∧
    (App.new.load_favorites net_all_ok).1.favorites = [] ∧
    (App.new.load_favorites net_all_ok).1.favorites_list_state = some 0 := by
  refine ⟨rfl, rfl, ?_, rfl, rfl, rfl, rfl, rfl⟩
  rw [show (App.new.perform_search net_all_ok).1.search_list_state = some 0 from rfl]
  exact Option.some_ne_none 0

/-- Claim C7 as amended: each list-replacing operation issues exactly
one fetch, and on success replaces the list and resets the selection
to Some(0) unconditionally, whether or not the fetched list is empty;
in Normal mode the screen-select keys 3 and 4 issue exactly that one
fetch. -/
theorem list_fetch_selection_amended (a : App) (net : Net) :
    (a.perform_search net).2 = [NetCall.get_search a.search_input 20] ∧
    (a.load_playlists net).2 = [NetCall.get_playlists] ∧
    (a.load_favorites net).2 = [NetCall.get_saved_tracks] ∧
    (∀ tracks, net.search_tracks = .ok tracks →
      (a.perform_search net).1.search_results = tracks ∧
      (a.perform_search net).1.search_list_state = some 0) ∧
    (∀ pls, net.user_playlists = .ok pls →
      (a.load_playlists net).1.playlists = pls ∧
      (a.load_playlists net).1.playlist_list_state = some 0) ∧
    (∀ tracks, net.saved_tracks = .ok tracks →
      (a.load_favorites net).1.favorites = tracks ∧
      (a.load_favorites net).1.favorites_list_state = some 0) ∧
    (a.input_mode = InputMode.normal →
      (a.handle_key_event net { code := KeyCode.char '3', ctrl := false }).1.2
        = [NetCall.get_playlists] ∧
      (a.handle_key_event net { code := KeyCode.char '4', ctrl := false }).1.2
        = [NetCall.get_saved_tracks]) := by
  refine ⟨?_, ?_, ?_, ?_, ?_, ?_, ?_⟩
  · cases hs : net.search_tracks <;>
      simp [App.perform_search, client_search_tracks, hs]
  · cases hs : net.user_playlists <;>
      simp [App.load_playlists, client_get_user_playlists, hs]
  · cases hs : net.saved_tracks <;>
      simp [App.load_favorites, client_get_saved_tracks, hs]
  · intro tracks hs
    constructor <;> simp [App.perform_search, client_search_tracks, hs]
  · intro pls hs
    constructor <;> simp [App.load_playlists, client_get_user_playlists, hs]
  · intro tracks hs
    constructor <;> simp [App.load_favorites, client_get_saved_tracks, hs]
  · intro h
    obtain ⟨cp, im, sc, si, sr, sls, vi, em, sm, sq, pl, plls, fav, favls⟩ := a
    have h2 : im = InputMode.normal := h
    subst h2
    constructor
    · show (App.load_playlists _ net).2 = [NetCall.get_playlists]
      cases hs : net.user_playlists <;>
        simp [App.load_playlists, client_get_user_playlists, hs]
    · show (App.load_favorites _ net).2 = [NetCall.get_saved_tracks]
      cases hs : net.saved_tracks <;>
        simp [App.load_favorites, client_get_saved_tracks, hs]

/-- Witness for list_fetch_selection_amended on the fresh app and the
all-success oracle. -/
theorem list_fetch_selection_amended_witness :
    (App.new.perform_search net_all_ok).2 = [NetCall.get_search "" 20] ∧
    (App.new.perform_search net_all_ok).1.search_list_state = some 0 ∧
    (App.new.handle_key_event net_all_ok
      { code := KeyCode.char '3', ctrl := false }).1.2 = [NetCall.get_playlists] := by
  have h := list_fetch_selection_amended App.new net_all_ok
  exact ⟨h.1, (h.2.2.2.1 [] rfl).2, (h.2.2.2.2.2.2 rfl).1⟩

/-- Claim C8 counterexample: with no active playback the shuffle and
repeat toggles do produce the error "No hay reproducción activa", but
only after issuing a playback-fetch network call (the trace is
non-empty), and with a last-known snapshot whose shuffle flag is off
while the fresh fetch reports shuffle on, the issued shuffle PUT
carries the inversion of the fetched flag (false), not of the
last-known one — refuting "without making any network call" and
"inverts the last-known shuffle flag". -/
theorem toggle_requires_fetch_cex :
    (client_toggle_shuffle net_all_ok).1 = Except.error ("No hay reproducción activa") ∧
    (client_toggle_shuffle net_all_ok).2 = [NetCall.get_playback] ∧
    (client_toggle_shuffle net_all_ok).2 ≠ [] ∧
    (client_toggle_repeat net_all_ok).1 = Except.error ("No hay reproducción activa") ∧
    (client_toggle_repeat net_all_ok).2 = [NetCall.get_playback] ∧
    app_stale_shuffle.current_playback = some (sample_playback false "off") ∧
    (app_stale_shuffle.toggle_shuffle net_fetch_shuffle_true).2
      = [NetCall.get_playback, NetCall.put_shuffle false, NetCall.get_playback] := by
  refine ⟨rfl, rfl, ?_, rfl, rfl, rfl, rfl⟩
  rw [show (client_toggle_shuffle net_all_ok).2 = [NetCall.get_playback] from rfl]
  exact List.cons_ne_nil _ _

/-- Claim C8 as amended: the shuffle and repeat toggles first fetch
current playback over the network; when that fetch reports no active
playback each fails with "No hay reproducción activa" after exactly
that one fetch call and without issuing any shuffle/repeat mutation,
and when it reports a playback the shuffle PUT inverts the freshly
fetched shuffle flag and the repeat PUT carries the cycled fetched
repeat state. -/
theorem toggle_precondition_amended (net : Net) (st : PlaybackState) :
    (net.playback = .ok none →
      client_toggle_shuffle net
        = (Except.error ("No hay reproducción activa"), [NetCall.get_playback]) ∧
      client_toggle_repeat net
        = (Except.error ("No hay reproducción activa"), [NetCall.get_playback])) ∧
    (net.playback = .ok (some st) →
      (client_toggle_shuffle net).2
        = [NetCall.get_playback, NetCall.put_shuffle (!st.shuffle_state)] ∧
      (client_toggle_repeat net).2
        = [NetCall.get_playback, NetCall.put_repeat (cycle_repeat_state st.repeat_state)]) := by
  constructor
  · intro h
    constructor <;>
      simp [client_toggle_shuffle, client_toggle_repeat, client_get_current_playback, h]
  · intro h
    constructor
    · cases hs : net.shuffle_put <;>
        simp [client_toggle_shuffle, client_get_current_playback, h, hs]
    · cases hs : net.repeat_put <;>
        simp [client_toggle_repeat, client_get_current_playback, h, hs]

/-- Witness for toggle_precondition_amended: no active playback with
net_all_ok, and an active fetched playback with shuffle on via
net_fetch_shuffle_true. -/
theorem toggle_precondition_amended_witness :
    (client_toggle_shuffle net_all_ok
      = (Except.error ("No hay reproducción activa"), [NetCall.get_playback])) ∧
    ((client_toggle_shuffle net_fetch_shuffle_true).2
      = [NetCall.get_playback, NetCall.put_shuffle (!(sample_playback true "off").shuffle_state)]) := by
  constructor
  · exact (toggle_precondition_amended net_all_ok (sample_playback true "off")).1 rfl |>.1
  · exact ((toggle_precondition_amended net_fetch_shuffle_true
      (sample_playback true "off")).2 rfl).1

end Spotigod
